import Mathlib

/-!
Verification of the record normalization/validation pipeline of
`pyspider/result/convert.py`: a shallow embedding of the module's data
model (Python scalar values, string-keyed dicts, exceptions) and of every
function in the file, followed by theorems settling the specification's
claims about them.

Python floats are modelled as rationals (the claims concern only sign
tests and equality at small literals, never rounding); Python exceptions
are modelled with `Except`.
-/

/-- A Python scalar value as it may appear in a scraper record:
`None`, a `str`, a `float` (modelled as `ℚ`) or an `int`. -/
inductive PyValue where
  | vNone : PyValue
  | vStr : String → PyValue
  | vFloat : Rat → PyValue
  | vInt : Int → PyValue
deriving DecidableEq, Repr

/-- A Python dict with string keys, modelled as an association list
(first binding of a key is its value; real dicts never repeat a key). -/
abbrev PyDict := List (String × PyValue)

/-- The exceptions `convert.py` can raise.  The four `ValueError`s the
validators raise deliberately are classified by the spec's taxonomy
(MissingField / EmptyField / InvalidFormat / InvalidType, each carrying
the canonical field name); the rest are Python's own untyped errors:
`attributeError` (a string method called on a non-string),
`typeError` (`re.match` applied to a non-string), `keyError`
(`task["..."]` on a missing key) and `parserError`
(`dateutil.parser._parser.ParserError`). -/
inductive PyErr where
  | missingField (field : String)
  | emptyField (field : String)
  | invalidFormat (field : String)
  | invalidType (field : String)
  | attributeError
  | typeError
  | keyError (key : String)
  | parserError
deriving DecidableEq, Repr

deriving instance DecidableEq for Except

/-- Python truthiness of a `PyValue`: `None` is falsy, a string is truthy
iff non-empty, a number is truthy iff non-zero. -/
def truthy : PyValue → Bool
  | .vNone => false
  | .vStr s => s ≠ ""
  | .vFloat q => q ≠ 0
  | .vInt n => n ≠ 0

/-- `d.get(k, default)`: the value of the first binding of `k`, or
`default` when `k` is unbound. -/
def pyGet (r : PyDict) (k : String) (default : PyValue) : PyValue :=
  match r.find? (fun p => p.1 == k) with
  | some p => p.2
  | none => default

/-- `d[k]`: the value of `k`, or a `KeyError` when `k` is unbound. -/
def pyIndex (r : PyDict) (k : String) : Except PyErr PyValue :=
  match r.find? (fun p => p.1 == k) with
  | some p => .ok p.2
  | none => .error (.keyError k)

/-- `d[k] = v`: replace the value of `k` in place, or append the binding
when `k` is unbound (Python dict assignment). -/
def dictSet : PyDict → String → PyValue → PyDict
  | [], k, v => [(k, v)]
  | (k', w) :: t, k, v =>
      if k' = k then (k, v) :: t else (k', w) :: dictSet t k v

/-- `str.strip()` on the underlying character list: drop leading and
trailing whitespace. -/
def stripStr (s : String) : String :=
  ⟨((s.data.dropWhile Char.isWhitespace).reverse.dropWhile
      Char.isWhitespace).reverse⟩

/-- `v.strip()`: strips a string, raises `AttributeError` on any
non-string value (`None`, `float`, `int` have no `.strip`). -/
def pyStrip : PyValue → Except PyErr String
  | .vStr s => .ok (stripStr s)
  | _ => .error .attributeError

/-- `r.get(k1) or r.get(k2) or ... or r.get(kn)`: the value of the first
key whose value is truthy; when every value is falsy, the value of the
LAST key (Python `or` returns its second operand unchanged). -/
def orChain (r : PyDict) : List String → PyValue
  | [] => .vNone
  | k :: ks =>
      let v := pyGet r k .vNone
      if ks = [] then v else if truthy v then v else orChain r ks

/-- `re.compile("[a-z][a-z]").match(s)`: do the first two characters of
`s` exist and lie in `a..z`?  (`re.match` anchors only at the start, so
this is a prefix test, not a full-string test.) -/
def matchSimpleLang (s : String) : Bool :=
  match s.data with
  | c1 :: c2 :: _ => c1.isLower && c2.isLower
  | _ => false

/-- `re.compile("[a-z][a-z]-[A-Z][A-Z]").match(s)`: prefix test for a
locale code such as `en-US`. -/
def matchLocale (s : String) : Bool :=
  match s.data with
  | c1 :: c2 :: c3 :: c4 :: c5 :: _ =>
      c1.isLower && c2.isLower && (c3 == '-') && c4.isUpper && c5.isUpper
  | _ => false

/-- `re.compile("[A-Z][A-Z]").match(s)`: are the first two characters of
`s` uppercase letters (prefix test only, no ISO-3166 membership)? -/
def matchUpper2 (s : String) : Bool :=
  match s.data with
  | c1 :: c2 :: _ => c1.isUpper && c2.isUpper
  | _ => false

/-- Is the value a string that is a member of the given list of strings
(Python `v in xs` for a list of `str`; a non-string never equals one)? -/
def memberStr (v : PyValue) (xs : List String) : Bool :=
  match v with
  | .vStr s => xs.contains s
  | _ => false

def SOURCE_TYPES : List String :=
  ["UNDEFINED", "REGULATORY_ENFORCEMENT", "LAW_ENFORCEMENT",
   "JUDICIARY_COURT_RECORDS", "NONGOV_ORG"]

def DOCUMENT_TYPES : List String :=
  ["UNKNOWN", "NEWS", "PRESS_RELEASE", "COMMENT", "ALERT",
   "LITIGATION", "OTHER"]

def IMPORTANCE : List String := ["LOW", "MEDIUM", "HIGH"]

/-- `parsedate(txt)`: calls `dateutil.parser.parse(txt, fuzzy=True)
.timestamp()` — modelled by the abstract parameter `p`, an arbitrary
function that either yields an epoch timestamp or raises — and catches
exactly `ParserError`, turning it into `None`; any other exception of
`p` propagates. -/
def parsedate (p : String → Except PyErr Rat) (txt : String) :
    Except PyErr (Option Rat) :=
  match p txt with
  | .ok t => .ok (some t)
  | .error .parserError => .ok none
  | .error e => .error e

/-- `validate_institution_name`: resolve `institution_name` or `name`
with an `or`-chain; raise MissingField when the resolved value is `None`
or falsy; otherwise return the stripped value. -/
def validate_institution_name (r : PyDict) : Except PyErr String :=
  let iname := orChain r ["institution_name", "name"]
  if iname = .vNone ∨ truthy iname = false then .error (.missingField "name")
  else pyStrip iname

/-- `validate_short_institution_name`: resolve `short_institution_name`,
`short_name` or `short`; raise MissingField when `None` or falsy; else
return the stripped value. -/
def validate_short_institution_name (r : PyDict) : Except PyErr String :=
  let sn := orChain r ["short_institution_name", "short_name", "short"]
  if sn = .vNone ∨ truthy sn = false then .error (.missingField "short_name")
  else pyStrip sn

/-- `validate_source_type`: `SOURCE_TYPES[0]` when the key is absent,
`None`, or its value is not a member of `SOURCE_TYPES`; otherwise the
value itself.  The Python body contains no raising operation, so the
function is total. -/
def validate_source_type (r : PyDict) : String :=
  match pyGet r "source_type" .vNone with
  | .vStr s => if SOURCE_TYPES.contains s then s else SOURCE_TYPES[0]!
  | _ => SOURCE_TYPES[0]!

/-- `validate_document_type`: same shape over `DOCUMENT_TYPES`. -/
def validate_document_type (r : PyDict) : String :=
  match pyGet r "document_type" .vNone with
  | .vStr s => if DOCUMENT_TYPES.contains s then s else DOCUMENT_TYPES[0]!
  | _ => DOCUMENT_TYPES[0]!

/-- `validate_importance`: `result.get("importance", "LOW")`, then
`"LOW"` unless the value is a member of `IMPORTANCE`. -/
def validate_importance (r : PyDict) : String :=
  match pyGet r "importance" (.vStr "LOW") with
  | .vStr s => if IMPORTANCE.contains s then s else "LOW"
  | _ => "LOW"

/-- `validate_published` (`now` stands for `time.time()`): absent →
`now`; a `str` → fuzzy-parse, `None` result → `now`, a float result →
that float (the further `else: return now` arm of the Python source is
dead, the parse result being `None` or `float`); a `float` that is
`> 0.0` → itself; anything else (a non-positive float, an `int`, …) →
`ValueError`, classified InvalidType. -/
def validate_published (p : String → Except PyErr Rat) (now : Rat)
    (r : PyDict) : Except PyErr Rat :=
  match pyGet r "published" .vNone with
  | .vNone => .ok now
  | .vStr s =>
      match parsedate p s with
      | .error e => .error e
      | .ok none => .ok now
      | .ok (some guess) => .ok guess
  | .vFloat f => if 0 < f then .ok f else .error (.invalidType "published")
  | .vInt _ => .error (.invalidType "published")

/-- `validate_title`: `result.get("title", "").strip()` — never a
validation error, but `.strip()` on a non-string raises
`AttributeError`. -/
def validate_title (r : PyDict) : Except PyErr String :=
  pyStrip (pyGet r "title" (.vStr ""))

/-- `validate_body`: absent → MissingField; `.strip()` (AttributeError
on a non-string); empty after stripping → EmptyField; else the stripped
body. -/
def validate_body (r : PyDict) : Except PyErr String :=
  match pyGet r "body" .vNone with
  | .vNone => .error (.missingField "body")
  | b =>
      match pyStrip b with
      | .error e => .error e
      | .ok s => if s = "" then .error (.emptyField "body") else .ok s

/-- `validate_lang`: resolve the four language aliases with an
`or`-chain; `None` → MissingField; a string → accepted unchanged iff its
prefix matches `[a-z][a-z]` or `[a-z][a-z]-[A-Z][A-Z]`, else
InvalidFormat; a non-string non-`None` value reaches `re.match` and
raises `TypeError`. -/
def validate_lang (r : PyDict) : Except PyErr String :=
  let lang := orChain r ["expected_language_code", "lang_code", "lang", "language"]
  match lang with
  | .vNone => .error (.missingField "lang_code")
  | .vStr s =>
      if matchSimpleLang s then .ok s
      else if matchLocale s then .ok s
      else .error (.invalidFormat "lang_code")
  | _ => .error .typeError

/-- `validate_jurisdiction`: resolve `jurisdiction` or `country`;
`None` → MissingField; strip (AttributeError on a non-string); empty →
EmptyField; first two characters not uppercase → InvalidFormat; else
the stripped value. -/
def validate_jurisdiction (r : PyDict) : Except PyErr String :=
  match orChain r ["jurisdiction", "country"] with
  | .vNone => .error (.missingField "jurisdiction")
  | v =>
      match pyStrip v with
      | .error e => .error e
      | .ok s =>
          if s = "" then .error (.emptyField "jurisdiction")
          else if matchUpper2 s = false then .error (.invalidFormat "jurisdiction")
          else .ok s

/-- `validate_jurisdiction_state`: resolve `jurisdiction_state` or
`state`; `None` or blank after stripping → `None`; else the stripped
value (`.strip()` still raises on a truthy non-string). -/
def validate_jurisdiction_state (r : PyDict) : Except PyErr (Option String) :=
  match orChain r ["jurisdiction_state", "state"] with
  | .vNone => .ok none
  | v =>
      match pyStrip v with
      | .error e => .error e
      | .ok s => if s = "" then .ok none else .ok (some s)

/-- `validate_jurisdiction_municipality`: same shape over
`jurisdiction_municipality`, `municipality`, `town`. -/
def validate_jurisdiction_municipality (r : PyDict) :
    Except PyErr (Option String) :=
  match orChain r ["jurisdiction_municipality", "municipality", "town"] with
  | .vNone => .ok none
  | v =>
      match pyStrip v with
      | .error e => .error e
      | .ok s => if s = "" then .ok none else .ok (some s)

/-- The canonical document `validate_response` assembles. -/
structure CanonicalDocument where
  published : Rat
  title : String
  body : String
  name : String
  short_name : String
  source_type : String
  document_type : String
  lang_code : String
  jurisdiction : String
  jurisdiction_state : Option String
  jurisdiction_municipality : Option String
  importance : String
deriving DecidableEq, Repr

/-- Python exception propagation through sequential evaluation: run `x`;
on an exception it propagates, otherwise continue with the value. -/
def ebind (x : Except PyErr α) (f : α → Except PyErr β) : Except PyErr β :=
  match x with
  | .error e => .error e
  | .ok a => f a

@[simp] theorem ebind_error (e : PyErr) (f : α → Except PyErr β) :
    ebind (.error e) f = .error e := rfl

@[simp] theorem ebind_ok (a : α) (f : α → Except PyErr β) :
    ebind (.ok a) f = f a := rfl

/-- `validate_response`: builds the result dict, evaluating the twelve
validators in the Python dict literal's source order — published, title,
body, name, short_name, source_type, document_type, lang_code,
jurisdiction, jurisdiction_state, jurisdiction_municipality,
importance — with the first exception aborting the whole literal.
`validate_source_type`, `validate_document_type` and
`validate_importance` are total (they raise nothing), so recording their
values in the final structure rather than in sequence is observationally
identical. -/
def validate_response (p : String → Except PyErr Rat) (now : Rat)
    (res : PyDict) : Except PyErr CanonicalDocument :=
  ebind (validate_published p now res) fun published =>
  ebind (validate_title res) fun title =>
  ebind (validate_body res) fun body =>
  ebind (validate_institution_name res) fun name =>
  ebind (validate_short_institution_name res) fun short_name =>
  ebind (validate_lang res) fun lang_code =>
  ebind (validate_jurisdiction res) fun jurisdiction =>
  ebind (validate_jurisdiction_state res) fun jurisdiction_state =>
  ebind (validate_jurisdiction_municipality res) fun jurisdiction_municipality =>
  .ok { published := published, title := title, body := body,
        name := name, short_name := short_name,
        source_type := validate_source_type res,
        document_type := validate_document_type res,
        lang_code := lang_code, jurisdiction := jurisdiction,
        jurisdiction_state := jurisdiction_state,
        jurisdiction_municipality := jurisdiction_municipality,
        importance := validate_importance res }

/-- `convert(task, result, timestamp)`: the dict literal
`{**result, "id": task["taskid"], "url": task["url"],
"version": timestamp, "crawled": timestamp}` — a shallow copy of
`result` with the four keys then assigned in order, the two `task`
subscripts raising `KeyError` when absent. -/
def convert (task result : PyDict) (timestamp : Rat) : Except PyErr PyDict :=
  ebind (pyIndex task "taskid") fun tid =>
  ebind (pyIndex task "url") fun u =>
  .ok (dictSet (dictSet (dictSet (dictSet result "id" tid) "url" u)
        "version" (.vFloat timestamp)) "crawled" (.vFloat timestamp))

/-! ## Lookup/update lemmas for the dict model -/

theorem pyGet_dictSet_self (r : PyDict) (k : String) (v d : PyValue) :
    pyGet (dictSet r k v) k d = v := by
  induction r with
  | nil => simp [dictSet, pyGet, List.find?]
  | cons a t ih =>
    obtain ⟨k', w⟩ := a
    by_cases h : k' = k
    · subst h; simp [dictSet, pyGet, List.find?]
    · simpa [dictSet, h, pyGet, List.find?] using ih

theorem pyGet_dictSet_ne (r : PyDict) (k k' : String) (v d : PyValue)
    (h : k' ≠ k) : pyGet (dictSet r k v) k' d = pyGet r k' d := by
  have hb : (k == k') = false := beq_eq_false_iff_ne.mpr (Ne.symm h)
  induction r with
  | nil => simp [dictSet, pyGet, List.find?, hb]
  | cons a t ih =>
    obtain ⟨k'', w⟩ := a
    by_cases hk : k'' = k
    · subst hk; simp [dictSet, pyGet, List.find?, hb]
    · by_cases hk2 : k'' = k'
      · subst hk2; simp [dictSet, hk, pyGet, List.find?]
      · have hb2 : (k'' == k') = false := beq_eq_false_iff_ne.mpr hk2
        simpa [dictSet, hk, pyGet, List.find?, hb2] using ih

/-- `ebind` inversion: a sequentially-evaluated computation that ends in
a value passed through its first step. -/
theorem ebind_eq_ok {α β : Type} {x : Except PyErr α} {f : α → Except PyErr β}
    {b : β} (h : ebind x f = .ok b) : ∃ a, x = .ok a ∧ f a = .ok b := by
  cases x with
  | error e => simp [ebind] at h
  | ok a => exact ⟨a, rfl, h⟩

/-- A stand-in for `dateutil.parser.parse` used to instantiate witnesses:
it raises `ParserError` on every input. -/
def dummyParse : String → Except PyErr Rat := fun _ => .error .parserError

/-! ## C1 — the published validator's four-way policy -/

/-- Claim C1 exactly as stated: absent `published` → current time;
string → fuzzy parse with fallback to current time; a NUMERIC (float or
int) strictly positive value → returned as-is; a numeric value ≤ 0 →
InvalidType. -/
def claimC1 : Prop :=
  ∀ (p : String → Except PyErr Rat) (now : Rat) (r : PyDict),
    (pyGet r "published" .vNone = .vNone → validate_published p now r = .ok now) ∧
    (∀ s : String, pyGet r "published" .vNone = .vStr s →
      (∀ t : Rat, parsedate p s = .ok (some t) → validate_published p now r = .ok t) ∧
      (parsedate p s = .ok none → validate_published p now r = .ok now)) ∧
    (∀ f : Rat, pyGet r "published" .vNone = .vFloat f → 0 < f →
      validate_published p now r = .ok f) ∧
    (∀ n : Int, pyGet r "published" .vNone = .vInt n → 0 < n →
      validate_published p now r = .ok (n : Rat)) ∧
    (∀ f : Rat, pyGet r "published" .vNone = .vFloat f → f ≤ 0 →
      validate_published p now r = .error (.invalidType "published")) ∧
    (∀ n : Int, pyGet r "published" .vNone = .vInt n → n ≤ 0 →
      validate_published p now r = .error (.invalidType "published"))

/-- C1 fails as stated: the record `{"published": 5}` holds a numeric,
strictly positive value (an int), yet `validate_published` raises
InvalidType — the source tests `type(pub) == float`, which an int never
satisfies. -/
theorem C1_counterexample : ¬ claimC1 := by
  intro h
  have h5 := (h dummyParse 0 [("published", .vInt 5)]).2.2.2.1 5 rfl (by norm_num)
  have hval : validate_published dummyParse 0 [("published", .vInt 5)] =
      .error (.invalidType "published") := rfl
  rw [hval] at h5
  exact Except.noConfusion h5

/-- C1 (amended): the four-way policy with "numeric" narrowed to
"float" — absent → `now`; string → parsed timestamp on success, `now`
on parse failure; float `> 0` → as-is; float `≤ 0` → InvalidType; an
int of either sign → InvalidType. -/
theorem C1_published_policy (p : String → Except PyErr Rat) (now : Rat)
    (r : PyDict) :
    (pyGet r "published" .vNone = .vNone → validate_published p now r = .ok now) ∧
    (∀ s : String, pyGet r "published" .vNone = .vStr s →
      (∀ t : Rat, parsedate p s = .ok (some t) → validate_published p now r = .ok t) ∧
      (parsedate p s = .ok none → validate_published p now r = .ok now)) ∧
    (∀ f : Rat, pyGet r "published" .vNone = .vFloat f → 0 < f →
      validate_published p now r = .ok f) ∧
    (∀ f : Rat, pyGet r "published" .vNone = .vFloat f → f ≤ 0 →
      validate_published p now r = .error (.invalidType "published")) ∧
    (∀ n : Int, pyGet r "published" .vNone = .vInt n →
      validate_published p now r = .error (.invalidType "published")) := by
  refine ⟨?_, ?_, ?_, ?_, ?_⟩
  · intro h; simp [validate_published, h]
  · intro s hs
    refine ⟨?_, ?_⟩
    · intro t ht; simp [validate_published, hs, ht]
    · intro ht; simp [validate_published, hs, ht]
  · intro f hf hpos; simp [validate_published, hf, hpos]
  · intro f hf hle; simp [validate_published, hf, not_lt.mpr hle]
  · intro n hn; simp [validate_published, hn]

/-- Witness for C1 at the spec's own example: `published = 5.0`
succeeds with `5.0`. -/
theorem C1_published_policy_witness :
    validate_published dummyParse 0 [("published", PyValue.vFloat 5)] = .ok 5 :=
  (C1_published_policy dummyParse 0 [("published", PyValue.vFloat 5)]).2.2.1
    5 rfl (by norm_num)

/-! ## C2 — first-error-wins in the fixed validator order -/

/-- C2: `validate_response` evaluates its validators in the fixed source
order published, title, body, name, short_name, (source_type,
document_type — total), lang_code, jurisdiction, jurisdiction_state,
jurisdiction_municipality, (importance — total), and the first failing
validator's error is the whole result: no partial document, no
aggregation. -/
theorem C2_first_error_wins (p : String → Except PyErr Rat) (now : Rat)
    (r : PyDict) :
    (∀ e, validate_published p now r = .error e →
      validate_response p now r = .error e) ∧
    (∀ v1 e, validate_published p now r = .ok v1 →
      validate_title r = .error e → validate_response p now r = .error e) ∧
    (∀ v1 v2 e, validate_published p now r = .ok v1 →
      validate_title r = .ok v2 → validate_body r = .error e →
      validate_response p now r = .error e) ∧
    (∀ v1 v2 v3 e, validate_published p now r = .ok v1 →
      validate_title r = .ok v2 → validate_body r = .ok v3 →
      validate_institution_name r = .error e →
      validate_response p now r = .error e) ∧
    (∀ v1 v2 v3 v4 e, validate_published p now r = .ok v1 →
      validate_title r = .ok v2 → validate_body r = .ok v3 →
      validate_institution_name r = .ok v4 →
      validate_short_institution_name r = .error e →
      validate_response p now r = .error e) ∧
    (∀ v1 v2 v3 v4 v5 e, validate_published p now r = .ok v1 →
      validate_title r = .ok v2 → validate_body r = .ok v3 →
      validate_institution_name r = .ok v4 →
      validate_short_institution_name r = .ok v5 →
      validate_lang r = .error e → validate_response p now r = .error e) ∧
    (∀ v1 v2 v3 v4 v5 v6 e, validate_published p now r = .ok v1 →
      validate_title r = .ok v2 → validate_body r = .ok v3 →
      validate_institution_name r = .ok v4 →
      validate_short_institution_name r = .ok v5 → validate_lang r = .ok v6 →
      validate_jurisdiction r = .error e →
      validate_response p now r = .error e) ∧
    (∀ v1 v2 v3 v4 v5 v6 v7 e, validate_published p now r = .ok v1 →
      validate_title r = .ok v2 → validate_body r = .ok v3 →
      validate_institution_name r = .ok v4 →
      validate_short_institution_name r = .ok v5 → validate_lang r = .ok v6 →
      validate_jurisdiction r = .ok v7 →
      validate_jurisdiction_state r = .error e →
      validate_response p now r = .error e) ∧
    (∀ v1 v2 v3 v4 v5 v6 v7 v8 e, validate_published p now r = .ok v1 →
      validate_title r = .ok v2 → validate_body r = .ok v3 →
      validate_institution_name r = .ok v4 →
      validate_short_institution_name r = .ok v5 → validate_lang r = .ok v6 →
      validate_jurisdiction r = .ok v7 →
      validate_jurisdiction_state r = .ok v8 →
      validate_jurisdiction_municipality r = .error e →
      validate_response p now r = .error e) := by
  refine ⟨?_, ?_, ?_, ?_, ?_, ?_, ?_, ?_, ?_⟩
  · intro e h1; simp [validate_response, h1]
  · intro v1 e h1 h2; simp [validate_response, h1, h2]
  · intro v1 v2 e h1 h2 h3; simp [validate_response, h1, h2, h3]
  · intro v1 v2 v3 e h1 h2 h3 h4; simp [validate_response, h1, h2, h3, h4]
  · intro v1 v2 v3 v4 e h1 h2 h3 h4 h5
    simp [validate_response, h1, h2, h3, h4, h5]
  · intro v1 v2 v3 v4 v5 e h1 h2 h3 h4 h5 h6
    simp [validate_response, h1, h2, h3, h4, h5, h6]
  · intro v1 v2 v3 v4 v5 v6 e h1 h2 h3 h4 h5 h6 h7
    simp [validate_response, h1, h2, h3, h4, h5, h6, h7]
  · intro v1 v2 v3 v4 v5 v6 v7 e h1 h2 h3 h4 h5 h6 h7 h8
    simp [validate_response, h1, h2, h3, h4, h5, h6, h7, h8]
  · intro v1 v2 v3 v4 v5 v6 v7 v8 e h1 h2 h3 h4 h5 h6 h7 h8 h9
    simp [validate_response, h1, h2, h3, h4, h5, h6, h7, h8, h9]

/-- Witness for C2: a record whose `published` fails makes
`validate_response` fail with exactly that first error. -/
theorem C2_first_error_wins_witness :
    validate_response dummyParse 0 [("published", PyValue.vInt 1)] =
      .error (.invalidType "published") :=
  (C2_first_error_wins dummyParse 0 [("published", PyValue.vInt 1)]).1
    (.invalidType "published") rfl

/-! ## C3 — parsedate returns a float or None, never raises -/

/-- C3: under dateutil's contract that a fuzzy parse failure raises
`ParserError` (the hypothesis on `p`, which models the external
`dateutil.parser.parse`), `parsedate` always returns — an epoch float
on success, `None` on failure — and never propagates an exception. -/
theorem C3_parsedate_total (p : String → Except PyErr Rat) (txt : String)
    (h : ∀ e, p txt = .error e → e = .parserError) :
    (∃ v : Option Rat, parsedate p txt = .ok v) ∧
    (∀ t, p txt = .ok t → parsedate p txt = .ok (some t)) ∧
    (p txt = .error .parserError → parsedate p txt = .ok none) := by
  refine ⟨?_, ?_, ?_⟩
  · cases hp : p txt with
    | ok t => exact ⟨some t, by simp [parsedate, hp]⟩
    | error e =>
      have he := h e hp
      subst he
      exact ⟨none, by simp [parsedate, hp]⟩
  · intro t ht; simp [parsedate, ht]
  · intro ht; simp [parsedate, ht]

/-- Witness for C3 at a concrete failing parser. -/
theorem C3_parsedate_total_witness :
    (∃ v : Option Rat, parsedate dummyParse "not a date" = .ok v) ∧
    (∀ t, dummyParse "not a date" = .ok t →
      parsedate dummyParse "not a date" = .ok (some t)) ∧
    (dummyParse "not a date" = .error .parserError →
      parsedate dummyParse "not a date" = .ok none) :=
  C3_parsedate_total dummyParse "not a date"
    (by intro e he; injection he with h; exact h.symm)

/-! ## C4 — alias resolution: first truthy key wins -/

/-- C4: an `or`-chain resolution returns the value of the first
candidate key whose value is truthy (later aliases are consulted only
when every earlier one is absent or falsy), and in particular with both
`institution_name` and `name` populated the resolved name is the
stripped `institution_name` value — the first-listed alias wins. -/
theorem C4_resolver_order :
    (∀ (r : PyDict) (ks1 : List String) (k : String) (ks2 : List String),
      (∀ k' ∈ ks1, truthy (pyGet r k' .vNone) = false) →
      truthy (pyGet r k .vNone) = true →
      orChain r (ks1 ++ k :: ks2) = pyGet r k .vNone) ∧
    (∀ (r : PyDict) (s t : String),
      pyGet r "institution_name" .vNone = .vStr s → s ≠ "" →
      pyGet r "name" .vNone = .vStr t →
      validate_institution_name r = .ok (stripStr s)) := by
  constructor
  · intro r ks1
    induction ks1 with
    | nil =>
      intro k ks2 _ htr
      cases ks2 with
      | nil => simp [orChain]
      | cons a l => simp [orChain, htr]
    | cons a ks1' ih =>
      intro k ks2 hfal htr
      have ha : truthy (pyGet r a .vNone) = false := hfal a (by simp)
      have hrest := ih k ks2 (fun k' hk' => hfal k' (by simp [hk'])) htr
      simp [orChain, ha, hrest]
  · intro r s t hs hne ht
    simp [validate_institution_name, orChain, hs, truthy, hne, pyStrip]

/-- Witness for C4: `institution_name` beats a populated `name`. -/
theorem C4_resolver_order_witness :
    validate_institution_name
      [("institution_name", PyValue.vStr "Inst"), ("name", PyValue.vStr "Other")] =
      .ok "Inst" := by
  have h := C4_resolver_order.2
    [("institution_name", PyValue.vStr "Inst"), ("name", PyValue.vStr "Other")]
    "Inst" "Other" rfl (by decide) rfl
  rw [h]; decide

/-! ## C5 — convert is a pure shallow merge -/

/-- C5: for task metadata carrying string `taskid` and `url`, `convert`
succeeds and produces exactly the shallow merge: every key of `result`
other than the four reserved ones keeps its value, `id` and `url` come
from the task, `version` and `crawled` are both the timestamp, and the
output is unique (the function is pure, hence deterministic). -/
theorem C5_convert_merge (task result : PyDict) (ts : Rat) (tid u : String)
    (htid : pyIndex task "taskid" = .ok (.vStr tid))
    (hurl : pyIndex task "url" = .ok (.vStr u)) :
    ∃ d, convert task result ts = .ok d ∧
      pyGet d "id" .vNone = .vStr tid ∧
      pyGet d "url" .vNone = .vStr u ∧
      pyGet d "version" .vNone = .vFloat ts ∧
      pyGet d "crawled" .vNone = .vFloat ts ∧
      (∀ k, k ≠ "id" → k ≠ "url" → k ≠ "version" → k ≠ "crawled" →
        pyGet d k .vNone = pyGet result k .vNone) ∧
      (∀ d', convert task result ts = .ok d' → d' = d) := by
  refine ⟨dictSet (dictSet (dictSet (dictSet result "id" (.vStr tid))
      "url" (.vStr u)) "version" (.vFloat ts)) "crawled" (.vFloat ts),
    by simp [convert, htid, hurl], ?_, ?_, ?_, ?_, ?_, ?_⟩
  · rw [pyGet_dictSet_ne _ "crawled" "id" _ _ (by decide),
      pyGet_dictSet_ne _ "version" "id" _ _ (by decide),
      pyGet_dictSet_ne _ "url" "id" _ _ (by decide), pyGet_dictSet_self]
  · rw [pyGet_dictSet_ne _ "crawled" "url" _ _ (by decide),
      pyGet_dictSet_ne _ "version" "url" _ _ (by decide), pyGet_dictSet_self]
  · rw [pyGet_dictSet_ne _ "crawled" "version" _ _ (by decide),
      pyGet_dictSet_self]
  · rw [pyGet_dictSet_self]
  · intro k h1 h2 h3 h4
    rw [pyGet_dictSet_ne _ "crawled" k _ _ h4,
      pyGet_dictSet_ne _ "version" k _ _ h3,
      pyGet_dictSet_ne _ "url" k _ _ h2, pyGet_dictSet_ne _ "id" k _ _ h1]
  · intro d' hd'
    simp [convert, htid, hurl] at hd'
    exact hd'.symm

/-- Witness for C5 at the spec's example:
`convert({"taskid": "t1", "url": "http://x"}, {"title": "T"}, 100.0)`. -/
theorem C5_convert_merge_witness :
    ∃ d, convert [("taskid", PyValue.vStr "t1"), ("url", PyValue.vStr "http://x")]
        [("title", PyValue.vStr "T")] 100 = .ok d ∧
      pyGet d "id" .vNone = .vStr "t1" ∧
      pyGet d "url" .vNone = .vStr "http://x" ∧
      pyGet d "version" .vNone = .vFloat 100 ∧
      pyGet d "crawled" .vNone = .vFloat 100 ∧
      pyGet d "title" .vNone = .vStr "T" := by
  obtain ⟨d, hok, hid, hurl, hver, hcr, hother, _⟩ :=
    C5_convert_merge [("taskid", PyValue.vStr "t1"), ("url", PyValue.vStr "http://x")]
      [("title", PyValue.vStr "T")] 100 "t1" "http://x" rfl rfl
  refine ⟨d, hok, hid, hurl, hver, hcr, ?_⟩
  have h := hother "title" (by decide) (by decide) (by decide) (by decide)
  rw [h]; decide

/-! ## C6 — the lang_code validator -/

/-- Claim C6 exactly as stated: MissingField whenever NONE of the four
aliases resolves to a truthy value; a resolved string accepted iff its
prefix matches one of the two patterns, else InvalidFormat. -/
def claimC6 : Prop :=
  ∀ r : PyDict,
    ((∀ k ∈ (["expected_language_code", "lang_code", "lang", "language"] :
        List String), truthy (pyGet r k .vNone) = false) →
      validate_lang r = .error (.missingField "lang_code")) ∧
    (∀ s, orChain r ["expected_language_code", "lang_code", "lang", "language"] =
        .vStr s →
      ((matchSimpleLang s = true ∨ matchLocale s = true) →
        validate_lang r = .ok s) ∧
      (matchSimpleLang s = false → matchLocale s = false →
        validate_lang r = .error (.invalidFormat "lang_code")))

/-- C6 fails as stated: in `{"language": ""}` no alias is truthy, yet
the `or`-chain returns the empty string (Python `or` yields its last
operand), which reaches the regex test and raises InvalidFormat, not
MissingField. -/
theorem C6_counterexample : ¬ claimC6 := by
  intro h
  have h1 := (h [("language", PyValue.vStr "")]).1 (by decide)
  have h2 : validate_lang [("language", PyValue.vStr "")] =
      .error (.invalidFormat "lang_code") := by decide
  rw [h2] at h1
  exact absurd h1 (by decide)

/-- C6 (amended): MissingField exactly when the `or`-chain resolves to
`None` (every alias falsy AND the last alias, `language`, absent or
`None`; a falsy non-`None` last value such as `""` gives InvalidFormat
instead); a resolved string is accepted unchanged iff its prefix
matches `[a-z][a-z]` or `[a-z][a-z]-[A-Z][A-Z]`, else InvalidFormat —
so `en-US` is accepted and `EN` is rejected. -/
theorem C6_lang_policy (r : PyDict) :
    (orChain r ["expected_language_code", "lang_code", "lang", "language"] =
        .vNone → validate_lang r = .error (.missingField "lang_code")) ∧
    (∀ s, orChain r ["expected_language_code", "lang_code", "lang", "language"] =
        .vStr s →
      (matchSimpleLang s = true → validate_lang r = .ok s) ∧
      (matchSimpleLang s = false → matchLocale s = true →
        validate_lang r = .ok s) ∧
      (matchSimpleLang s = false → matchLocale s = false →
        validate_lang r = .error (.invalidFormat "lang_code"))) ∧
    validate_lang [("lang", PyValue.vStr "en-US")] = .ok "en-US" ∧
    validate_lang [("lang", PyValue.vStr "EN")] =
      .error (.invalidFormat "lang_code") := by
  refine ⟨?_, ?_, by decide, by decide⟩
  · intro h; simp [validate_lang, h]
  · intro s hs
    refine ⟨?_, ?_, ?_⟩
    · intro h1; simp [validate_lang, hs, h1]
    · intro h1 h2; simp [validate_lang, hs, h1, h2]
    · intro h1 h2; simp [validate_lang, hs, h1, h2]

/-- Witness for C6 at `{"lang": "en"}`. -/
theorem C6_lang_policy_witness :
    validate_lang [("lang", PyValue.vStr "en")] = .ok "en" :=
  ((C6_lang_policy [("lang", PyValue.vStr "en")]).2.1 "en" rfl).1 rfl

/-! ## C7 — the jurisdiction validator -/

/-- Claim C7 exactly as stated: MissingField whenever neither
`jurisdiction` nor `country` resolves to a truthy value; then trim;
EmptyField when blank after trimming; InvalidFormat unless the first
two characters are uppercase letters; else the trimmed value. -/
def claimC7 : Prop :=
  ∀ r : PyDict,
    ((∀ k ∈ (["jurisdiction", "country"] : List String),
        truthy (pyGet r k .vNone) = false) →
      validate_jurisdiction r = .error (.missingField "jurisdiction")) ∧
    (∀ s, orChain r ["jurisdiction", "country"] = .vStr s →
      (stripStr s = "" →
        validate_jurisdiction r = .error (.emptyField "jurisdiction")) ∧
      (stripStr s ≠ "" → matchUpper2 (stripStr s) = false →
        validate_jurisdiction r = .error (.invalidFormat "jurisdiction")) ∧
      (stripStr s ≠ "" → matchUpper2 (stripStr s) = true →
        validate_jurisdiction r = .ok (stripStr s)))

/-- C7 fails as stated: in `{"country": ""}` neither alias is truthy,
yet the `or`-chain returns `""` (the last operand), which is stripped
and rejected as EmptyField, not MissingField. -/
theorem C7_counterexample : ¬ claimC7 := by
  intro h
  have h1 := (h [("country", PyValue.vStr "")]).1 (by decide)
  have h2 : validate_jurisdiction [("country", PyValue.vStr "")] =
      .error (.emptyField "jurisdiction") := by decide
  rw [h2] at h1
  exact absurd h1 (by decide)

/-- C7 (amended): MissingField exactly when the `or`-chain resolves to
`None` (both aliases falsy AND the last alias, `country`, absent or
`None`; a falsy non-`None` value such as `""` gives EmptyField after
trimming instead); a resolved string is trimmed, EmptyField when blank,
InvalidFormat unless its first two characters are uppercase letters
(prefix test only — the non-ISO-3166 string `XX` passes), else the
trimmed value is returned. -/
theorem C7_jurisdiction_policy (r : PyDict) :
    (orChain r ["jurisdiction", "country"] = .vNone →
      validate_jurisdiction r = .error (.missingField "jurisdiction")) ∧
    (∀ s, orChain r ["jurisdiction", "country"] = .vStr s →
      (stripStr s = "" →
        validate_jurisdiction r = .error (.emptyField "jurisdiction")) ∧
      (stripStr s ≠ "" → matchUpper2 (stripStr s) = false →
        validate_jurisdiction r = .error (.invalidFormat "jurisdiction")) ∧
      (stripStr s ≠ "" → matchUpper2 (stripStr s) = true →
        validate_jurisdiction r = .ok (stripStr s))) ∧
    validate_jurisdiction [("jurisdiction", PyValue.vStr "XX")] = .ok "XX" := by
  refine ⟨?_, ?_, by decide⟩
  · intro h; simp [validate_jurisdiction, h]
  · intro s hs
    refine ⟨?_, ?_, ?_⟩
    · intro h1; simp [validate_jurisdiction, hs, pyStrip, h1]
    · intro h1 h2; simp [validate_jurisdiction, hs, pyStrip, h1, h2]
    · intro h1 h2; simp [validate_jurisdiction, hs, pyStrip, h1, h2]

/-- Witness for C7 at `{"jurisdiction": " US "}`: trimmed and
accepted. -/
theorem C7_jurisdiction_policy_witness :
    validate_jurisdiction [("jurisdiction", PyValue.vStr " US ")] = .ok "US" := by
  have h := ((C7_jurisdiction_policy [("jurisdiction", PyValue.vStr " US ")]).2.1
    " US " rfl).2.2 (by decide) (by decide)
  rw [h]; decide

/-! ## C8 — taxonomy fields silently fall back to their defaults -/

/-- C8: `validate_source_type`, `validate_document_type` and
`validate_importance` never fail (in the embedding they are total
functions into `String`, mirroring Python bodies with no raising
operation): an absent key, a `None`, a non-string or a string outside
the taxonomy all yield the default — the taxonomy's first entry
`UNDEFINED` / `UNKNOWN`, or `LOW` — while a taxonomy member is
returned unchanged. -/
theorem SOURCE_TYPES_zero : SOURCE_TYPES[0]! = "UNDEFINED" := rfl

theorem DOCUMENT_TYPES_zero : DOCUMENT_TYPES[0]! = "UNKNOWN" := rfl

theorem C8_taxonomy_defaults (r : PyDict) :
    (memberStr (pyGet r "source_type" .vNone) SOURCE_TYPES = false →
      validate_source_type r = "UNDEFINED") ∧
    (∀ s, pyGet r "source_type" .vNone = .vStr s →
      SOURCE_TYPES.contains s = true → validate_source_type r = s) ∧
    (memberStr (pyGet r "document_type" .vNone) DOCUMENT_TYPES = false →
      validate_document_type r = "UNKNOWN") ∧
    (∀ s, pyGet r "document_type" .vNone = .vStr s →
      DOCUMENT_TYPES.contains s = true → validate_document_type r = s) ∧
    (memberStr (pyGet r "importance" (.vStr "LOW")) IMPORTANCE = false →
      validate_importance r = "LOW") ∧
    (∀ s, pyGet r "importance" (.vStr "LOW") = .vStr s →
      IMPORTANCE.contains s = true → validate_importance r = s) ∧
    SOURCE_TYPES.head? = some "UNDEFINED" ∧
    DOCUMENT_TYPES.head? = some "UNKNOWN" := by
  refine ⟨?_, ?_, ?_, ?_, ?_, ?_, by decide, by decide⟩
  · intro h
    cases hv : pyGet r "source_type" .vNone with
    | vStr s => rw [hv] at h; simp [memberStr] at h
                simp [validate_source_type, hv, h, SOURCE_TYPES_zero]
    | vNone => simp [validate_source_type, hv, SOURCE_TYPES_zero]
    | vFloat f => simp [validate_source_type, hv, SOURCE_TYPES_zero]
    | vInt n => simp [validate_source_type, hv, SOURCE_TYPES_zero]
  · intro s hv hm
    have hm' : s ∈ SOURCE_TYPES := by simpa using hm
    simp [validate_source_type, hv, hm']
  · intro h
    cases hv : pyGet r "document_type" .vNone with
    | vStr s => rw [hv] at h; simp [memberStr] at h
                simp [validate_document_type, hv, h, DOCUMENT_TYPES_zero]
    | vNone => simp [validate_document_type, hv, DOCUMENT_TYPES_zero]
    | vFloat f => simp [validate_document_type, hv, DOCUMENT_TYPES_zero]
    | vInt n => simp [validate_document_type, hv, DOCUMENT_TYPES_zero]
  · intro s hv hm
    have hm' : s ∈ DOCUMENT_TYPES := by simpa using hm
    simp [validate_document_type, hv, hm']
  · intro h
    cases hv : pyGet r "importance" (.vStr "LOW") with
    | vStr s => rw [hv] at h; simp [memberStr] at h
                simp [validate_importance, hv, h]
    | vNone => simp [validate_importance, hv]
    | vFloat f => simp [validate_importance, hv]
    | vInt n => simp [validate_importance, hv]
  · intro s hv hm
    have hm' : s ∈ IMPORTANCE := by simpa using hm
    simp [validate_importance, hv, hm']

/-- Witness for C8 at the spec's example `{"source_type":
"NOT_A_TYPE"}`. -/
theorem C8_taxonomy_defaults_witness :
    validate_source_type [("source_type", PyValue.vStr "NOT_A_TYPE")] =
      "UNDEFINED" :=
  (C8_taxonomy_defaults [("source_type", PyValue.vStr "NOT_A_TYPE")]).1
    (by decide)

/-! ## C9 — the body requirement as seen through validate_response -/

/-- Inverting a successful `validate_body`: the record held a string
under `"body"` whose stripped form is the non-empty result. -/
theorem validate_body_ok_inv (r : PyDict) (b : String)
    (h : validate_body r = .ok b) :
    b ≠ "" ∧ ∃ s, pyGet r "body" .vNone = .vStr s ∧ b = stripStr s := by
  cases hv : pyGet r "body" .vNone with
  | vNone => simp [validate_body, hv] at h
  | vStr s =>
    by_cases he : stripStr s = ""
    · simp [validate_body, hv, pyStrip, he] at h
    · simp [validate_body, hv, pyStrip, he] at h
      exact ⟨h ▸ he, s, rfl, h.symm⟩
  | vFloat f => simp [validate_body, hv, pyStrip] at h
  | vInt n => simp [validate_body, hv, pyStrip] at h

/-- Inverting a successful `validate_response`: in particular its body
field came from a successful `validate_body`. -/
theorem validate_response_ok_body (p : String → Except PyErr Rat)
    (now : Rat) (r : PyDict) (d : CanonicalDocument)
    (h : validate_response p now r = .ok d) :
    validate_body r = .ok d.body := by
  unfold validate_response at h
  obtain ⟨pub, h1, h⟩ := ebind_eq_ok h
  obtain ⟨ti, h2, h⟩ := ebind_eq_ok h
  obtain ⟨bo, h3, h⟩ := ebind_eq_ok h
  obtain ⟨na, h4, h⟩ := ebind_eq_ok h
  obtain ⟨sn, h5, h⟩ := ebind_eq_ok h
  obtain ⟨lc, h6, h⟩ := ebind_eq_ok h
  obtain ⟨ju, h7, h⟩ := ebind_eq_ok h
  obtain ⟨js, h8, h⟩ := ebind_eq_ok h
  obtain ⟨jm, h9, h⟩ := ebind_eq_ok h
  have hd := Except.ok.inj h
  rw [← hd]
  exact h3

/-- Claim C9 exactly as stated: EVERY record missing `body` makes
`validate_response` fail with MissingField, every record with a
whitespace-only `body` string fail with EmptyField, and a successful
validation carries the trimmed, non-empty body. -/
def claimC9 : Prop :=
  ∀ (p : String → Except PyErr Rat) (now : Rat) (r : PyDict),
    (pyGet r "body" .vNone = .vNone →
      validate_response p now r = .error (.missingField "body")) ∧
    (∀ s, pyGet r "body" .vNone = .vStr s → stripStr s = "" →
      validate_response p now r = .error (.emptyField "body")) ∧
    (∀ d, validate_response p now r = .ok d →
      d.body ≠ "" ∧ ∃ s, pyGet r "body" .vNone = .vStr s ∧ d.body = stripStr s)

/-- C9 fails as stated: the record `{"published": -5.0}` is missing
`body`, yet `validate_response` fails with InvalidType on `published`,
which is validated BEFORE `body` in the fixed order — not with
MissingField. -/
theorem C9_counterexample : ¬ claimC9 := by
  intro h
  have h1 := (h dummyParse 0 [("published", PyValue.vFloat (-5))]).1 rfl
  have h2 : validate_response dummyParse 0 [("published", PyValue.vFloat (-5))] =
      .error (.invalidType "published") := by decide
  rw [h2] at h1
  exact absurd h1 (by decide)

/-- C9 (amended): on records where the earlier validators (published,
title) succeed, a missing `body` fails with MissingField and a
whitespace-only `body` fails with EmptyField; unconditionally, a
successful validation's body is the trimmed `body` string and is
non-empty. -/
theorem C9_body_policy (p : String → Except PyErr Rat) (now : Rat)
    (r : PyDict) :
    (∀ pv tv, validate_published p now r = .ok pv → validate_title r = .ok tv →
      (pyGet r "body" .vNone = .vNone →
        validate_response p now r = .error (.missingField "body")) ∧
      (∀ s, pyGet r "body" .vNone = .vStr s → stripStr s = "" →
        validate_response p now r = .error (.emptyField "body"))) ∧
    (∀ d, validate_response p now r = .ok d →
      d.body ≠ "" ∧ ∃ s, pyGet r "body" .vNone = .vStr s ∧
        d.body = stripStr s) := by
  constructor
  · intro pv tv hp ht
    constructor
    · intro hb
      have hbe : validate_body r = .error (.missingField "body") := by
        simp [validate_body, hb]
      simp [validate_response, hp, ht, hbe]
    · intro s hb hs
      have hbe : validate_body r = .error (.emptyField "body") := by
        simp [validate_body, hb, pyStrip, hs]
      simp [validate_response, hp, ht, hbe]
  · intro d hd
    exact validate_body_ok_inv r d.body (validate_response_ok_body p now r d hd)

/-- Witness for C9: a record with valid `published` and no `body`
fails with MissingField on `body`. -/
theorem C9_body_policy_witness :
    validate_response dummyParse 0 [("published", PyValue.vFloat 5)] =
      .error (.missingField "body") :=
  ((C9_body_policy dummyParse 0 [("published", PyValue.vFloat 5)]).1
    5 "" rfl rfl).1 rfl

/-! ## C10 — a non-string in a string field escapes the typed errors -/

/-- A record satisfying every stated required-field rule (`body`,
`name`, `short_name`, `lang`, `jurisdiction` present and well-formed,
`published` a positive float) whose `title` holds a float. -/
def c10rec : PyDict :=
  [("published", .vFloat 5), ("title", .vFloat 1), ("body", .vStr "x"),
   ("name", .vStr "A"), ("short_name", .vStr "a"), ("lang", .vStr "en"),
   ("jurisdiction", .vStr "US")]

/-- C10: on `c10rec` every required-field validator succeeds, yet
`validate_response` raises the untyped `AttributeError` (from
`.strip()` on the float under `title`) rather than any of the four
typed validation errors. -/
theorem C10_untyped_attribute_error (p : String → Except PyErr Rat)
    (now : Rat) :
    validate_body c10rec = .ok "x" ∧
    validate_institution_name c10rec = .ok "A" ∧
    validate_short_institution_name c10rec = .ok "a" ∧
    validate_lang c10rec = .ok "en" ∧
    validate_jurisdiction c10rec = .ok "US" ∧
    validate_published p now c10rec = .ok 5 ∧
    validate_response p now c10rec = .error .attributeError := by
  refine ⟨by decide, by decide, by decide, by decide, by decide, rfl, ?_⟩
  have hp : validate_published p now c10rec = .ok 5 := rfl
  have ht : validate_title c10rec = .error .attributeError := by decide
  simp [validate_response, hp, ht]
